import Mathlib

/-!
Verification development for the CyberNova anomaly-detection and
alert-deduplication pipeline.

The definitions below are a shallow embedding, translated from the Python
sources:
  * `app/utils.py`             — `sha1_fingerprint`
  * `cybernova2/app/generator.py` — `severity_from_type`, `detect` (network
    rules), `build_alert` (fingerprint computation), and the submit/trim
    step of `run`
  * `app/app.py`               — `threat_level`
  * `app/suricata_ingest.py`   — `get_severity_from_priority`,
    `get_alert_category`, `create_alert_hash`, `parse_suricata_alert`,
    `SuricataProcessor.is_duplicate`, `SuricataProcessor.process_new_lines`,
    `SuricataProcessor.cleanup_old_alerts`

Machine integers are modelled as `Nat` reduced mod 2^32 where the hash
algorithms require 32-bit wraparound.  Strings are Lean `String`s; UTF-8
encoding is made explicit.  Fallible Python code (statements that can raise)
is modelled with `Except`/`Option`.
-/

set_option maxRecDepth 400000

/-- Reduce a natural number to a 32-bit word. -/
def w32 (x : Nat) : Nat := x % 4294967296

/-- Thirty-two-bit left rotation (argument assumed `< 2^32`). -/
def rotl32 (x n : Nat) : Nat := w32 (x <<< n) ||| (x >>> (32 - n))

/-- Big-endian byte serialisation of `n` into `k` bytes. -/
def natToBytesBE : Nat → Nat → List Nat
  | 0, _ => []
  | k+1, n => natToBytesBE k (n >>> 8) ++ [n % 256]

/-- Little-endian byte serialisation of `n` into `k` bytes. -/
def natToBytesLE : Nat → Nat → List Nat
  | 0, _ => []
  | k+1, n => (n % 256) :: natToBytesLE k (n >>> 8)

/-- UTF-8 encoding of a single character (code point as `Nat`). -/
def utf8Char (c : Char) : List Nat :=
  let n := c.toNat
  if n < 0x80 then [n]
  else if n < 0x800 then [0xC0 ||| (n >>> 6), 0x80 ||| (n &&& 0x3F)]
  else if n < 0x10000 then
    [0xE0 ||| (n >>> 12), 0x80 ||| ((n >>> 6) &&& 0x3F), 0x80 ||| (n &&& 0x3F)]
  else
    [0xF0 ||| (n >>> 18), 0x80 ||| ((n >>> 12) &&& 0x3F),
     0x80 ||| ((n >>> 6) &&& 0x3F), 0x80 ||| (n &&& 0x3F)]

/-- UTF-8 encoding of a string, as a list of bytes. -/
def utf8 (s : String) : List Nat := (s.data.map utf8Char).flatten

/-- Split a byte list into 64-byte blocks (fuel-indexed helper). -/
def chunksAux : Nat → List Nat → List (List Nat)
  | 0, _ => []
  | _, [] => []
  | fuel+1, l => l.take 64 :: chunksAux fuel (l.drop 64)

def chunks64 (l : List Nat) : List (List Nat) := chunksAux l.length l

/-- Merkle–Damgård padding shared by SHA-1 and MD5 (length field endianness
differs between the two). -/
def mdZeros (len : Nat) : Nat := (119 - len % 64) % 64

def sha1Pad (msg : List Nat) : List Nat :=
  msg ++ [0x80] ++ List.replicate (mdZeros msg.length) 0
      ++ natToBytesBE 8 (msg.length * 8)

def md5Pad (msg : List Nat) : List Nat :=
  msg ++ [0x80] ++ List.replicate (mdZeros msg.length) 0
      ++ natToBytesLE 8 (msg.length * 8)

/-- Group bytes into 32-bit big-endian words. -/
def bytesToWordsBE : List Nat → List Nat
  | a :: b :: c :: d :: rest =>
      (((a * 256 + b) * 256 + c) * 256 + d) :: bytesToWordsBE rest
  | _ => []

/-- Group bytes into 32-bit little-endian words. -/
def bytesToWordsLE : List Nat → List Nat
  | a :: b :: c :: d :: rest =>
      (a + 256 * (b + 256 * (c + 256 * d))) :: bytesToWordsLE rest
  | _ => []

/-- SHA-1 message-schedule extension: append words 16..79. -/
def sha1ExtendAux : Nat → List Nat → List Nat
  | 0, acc => acc
  | fuel+1, acc =>
      let n := acc.length
      let w := rotl32 ((acc.getD (n-3) 0) ^^^ (acc.getD (n-8) 0) ^^^
                       (acc.getD (n-14) 0) ^^^ (acc.getD (n-16) 0)) 1
      sha1ExtendAux fuel (acc ++ [w])

def sha1Schedule (ws : List Nat) : List Nat := sha1ExtendAux 64 ws

structure SHA1St where
  a : Nat
  b : Nat
  c : Nat
  d : Nat
  e : Nat
deriving Repr, DecidableEq

def sha1F (i b c d : Nat) : Nat :=
  if i < 20 then (b &&& c) ||| ((b ^^^ 0xFFFFFFFF) &&& d)
  else if i < 40 then b ^^^ c ^^^ d
  else if i < 60 then (b &&& c) ||| (b &&& d) ||| (c &&& d)
  else b ^^^ c ^^^ d

def sha1K (i : Nat) : Nat :=
  if i < 20 then 0x5A827999 else if i < 40 then 0x6ED9EBA1
  else if i < 60 then 0x8F1BBCDC else 0xCA62C1D6

def sha1Rounds : Nat → SHA1St → List Nat → SHA1St
  | _, st, [] => st
  | i, st, w :: rest =>
      let t := w32 (rotl32 st.a 5 + sha1F i st.b st.c st.d + st.e + sha1K i + w)
      sha1Rounds (i+1) ⟨t, st.a, rotl32 st.b 30, st.c, st.d⟩ rest

def sha1Block (h : SHA1St) (block : List Nat) : SHA1St :=
  let st := sha1Rounds 0 h (sha1Schedule (bytesToWordsBE block))
  ⟨w32 (h.a + st.a), w32 (h.b + st.b), w32 (h.c + st.c),
   w32 (h.d + st.d), w32 (h.e + st.e)⟩

def sha1Init : SHA1St := ⟨0x67452301, 0xEFCDAB89, 0x98BADCFE, 0x10325476, 0xC3D2E1F0⟩

def hexDigit (n : Nat) : Char :=
  if n < 10 then Char.ofNat (48 + n) else Char.ofNat (87 + n)

/-- Hex rendering of a 32-bit word, most significant nibble first. -/
def wordToHexBE (w : Nat) : List Char :=
  [hexDigit ((w >>> 28) % 16), hexDigit ((w >>> 24) % 16),
   hexDigit ((w >>> 20) % 16), hexDigit ((w >>> 16) % 16),
   hexDigit ((w >>> 12) % 16), hexDigit ((w >>> 8) % 16),
   hexDigit ((w >>> 4) % 16), hexDigit (w % 16)]

/-- Hex rendering of a 32-bit word, least significant byte first (MD5 style). -/
def wordToHexLE (w : Nat) : List Char :=
  [hexDigit ((w >>> 4) % 16), hexDigit (w % 16),
   hexDigit ((w >>> 12) % 16), hexDigit ((w >>> 8) % 16),
   hexDigit ((w >>> 20) % 16), hexDigit ((w >>> 16) % 16),
   hexDigit ((w >>> 28) % 16), hexDigit ((w >>> 24) % 16)]

/-- SHA-1 of a byte list, as the usual 40-character lowercase hex string. -/
def sha1Hex (msg : List Nat) : String :=
  let f := (chunks64 (sha1Pad msg)).foldl sha1Block sha1Init
  ⟨wordToHexBE f.a ++ wordToHexBE f.b ++ wordToHexBE f.c ++
   wordToHexBE f.d ++ wordToHexBE f.e⟩

/-- Embeds `app/utils.py` `sha1_fingerprint(*parts)`: feed the UTF-8 bytes of each
part (with `None` coerced to the empty string, as `p or ''` does for string
arguments) into one SHA-1 computation and return the hex digest. -/
def sha1_fingerprint (parts : List (Option String)) : String :=
  sha1Hex ((parts.map (fun p => utf8 (p.getD ""))).flatten)

/-! ### MD5 (used by `create_alert_hash` in `app/suricata_ingest.py`) -/

structure MD5St where
  a : Nat
  b : Nat
  c : Nat
  d : Nat
deriving Repr, DecidableEq

def md5S : List Nat :=
  [7,12,17,22,7,12,17,22,7,12,17,22,7,12,17,22,
   5,9,14,20,5,9,14,20,5,9,14,20,5,9,14,20,
   4,11,16,23,4,11,16,23,4,11,16,23,4,11,16,23,
   6,10,15,21,6,10,15,21,6,10,15,21,6,10,15,21]

def md5K : List Nat :=
  [0xd76aa478, 0xe8c7b756, 0x242070db, 0xc1bdceee,
   0xf57c0faf, 0x4787c62a, 0xa8304613, 0xfd469501,
   0x698098d8, 0x8b44f7af, 0xffff5bb1, 0x895cd7be,
   0x6b901122, 0xfd987193, 0xa679438e, 0x49b40821,
   0xf61e2562, 0xc040b340, 0x265e5a51, 0xe9b6c7aa,
   0xd62f105d, 0x02441453, 0xd8a1e681, 0xe7d3fbc8,
   0x21e1cde6, 0xc33707d6, 0xf4d50d87, 0x455a14ed,
   0xa9e3e905, 0xfcefa3f8, 0x676f02d9, 0x8d2a4c8a,
   0xfffa3942, 0x8771f681, 0x6d9d6122, 0xfde5380c,
   0xa4beea44, 0x4bdecfa9, 0xf6bb4b60, 0xbebfbc70,
   0x289b7ec6, 0xeaa127fa, 0xd4ef3085, 0x04881d05,
   0xd9d4d039, 0xe6db99e5, 0x1fa27cf8, 0xc4ac5665,
   0xf4292244, 0x432aff97, 0xab9423a7, 0xfc93a039,
   0x655b59c3, 0x8f0ccc92, 0xffeff47d, 0x85845dd1,
   0x6fa87e4f, 0xfe2ce6e0, 0xa3014314, 0x4e0811a1,
   0xf7537e82, 0xbd3af235, 0x2ad7d2bb, 0xeb86d391]

def md5Step (M : List Nat) (st : MD5St) (i : Nat) : MD5St :=
  let fg : Nat × Nat :=
    if i < 16 then
      ((st.b &&& st.c) ||| ((st.b ^^^ 0xFFFFFFFF) &&& st.d), i)
    else if i < 32 then
      ((st.d &&& st.b) ||| ((st.d ^^^ 0xFFFFFFFF) &&& st.c), (5*i + 1) % 16)
    else if i < 48 then
      (st.b ^^^ st.c ^^^ st.d, (3*i + 5) % 16)
    else
      (st.c ^^^ (st.b ||| (st.d ^^^ 0xFFFFFFFF)), (7*i) % 16)
  let tmp := w32 (st.a + fg.1 + md5K.getD i 0 + M.getD fg.2 0)
  ⟨st.d, w32 (st.b + rotl32 tmp (md5S.getD i 0)), st.b, st.c⟩

def md5Block (h : MD5St) (block : List Nat) : MD5St :=
  let M := bytesToWordsLE block
  let st := (List.range 64).foldl (md5Step M) h
  ⟨w32 (h.a + st.a), w32 (h.b + st.b), w32 (h.c + st.c), w32 (h.d + st.d)⟩

def md5Init : MD5St := ⟨0x67452301, 0xefcdab89, 0x98badcfe, 0x10325476⟩

/-- MD5 of a byte list, as the usual 32-character lowercase hex string. -/
def md5Hex (msg : List Nat) : String :=
  let f := (chunks64 (md5Pad msg)).foldl md5Block md5Init
  ⟨wordToHexLE f.a ++ wordToHexLE f.b ++ wordToHexLE f.c ++ wordToHexLE f.d⟩


/-! ### `cybernova2/app/generator.py` — severity table, network rules,
fingerprint of `build_alert`, and the submit/trim step of `run` -/

/-- The static `mapping` dict of `severity_from_type`. -/
def severityTable : List (String × String) :=
  [("High Temp", "HIGH"), ("Low Battery", "HIGH"), ("High CPU", "MEDIUM"),
   ("Unauthorized Command", "HIGH"), ("Critical Command", "CRITICAL"),
   ("Failed Login", "LOW"), ("DDoS", "HIGH"), ("Large Packet", "MEDIUM"),
   ("GPS Spoofing", "HIGH"), ("GPS Accuracy", "MEDIUM"),
   ("GPS Jamming", "HIGH"), ("GPS Speed Gate", "HIGH")]

/-- Embeds `severity_from_type(t)`: `mapping.get(t, "LOW")`. -/
def severity_from_type (t : String) : String :=
  (severityTable.lookup t).getD "LOW"

/-- The string hashed by `build_alert`'s fingerprint call, i.e. the
concatenation `src ++ typ ++ desc ++ ts[:16]` (the SHA-1 consumes exactly its
UTF-8 bytes, see `buildAlertFp_eq_hash_of_concat`). -/
def fpInput (src typ desc ts : String) : String :=
  src ++ typ ++ desc ++ ts.take 16

/-- The fingerprint computed in `build_alert`:
`sha1_fingerprint(src, typ, desc, ts[:16])` (minute bucket). -/
def buildAlertFp (src typ desc ts : String) : String :=
  sha1_fingerprint [some src, some typ, some desc, some (ts.take 16)]

/-- The Alert record built by `build_alert` (`alert_schema.Alert`); the `id`
and timestamp are produced by `uuid_str()` / `now_iso()` at call time and are
passed in explicitly here. -/
structure GAlert where
  id : String
  source : String
  type : String
  severity : String
  timestamp : String
  description : String
  fingerprint : String
deriving Repr, DecidableEq

def build_alert (idv src typ desc ts : String) : GAlert :=
  ⟨idv, src, typ, severity_from_type typ, ts, desc, buildAlertFp src typ desc ts⟩

/-- The `NETWORK_TRAFFIC` branch of `detect`: thresholds come from
`CFG['network']` (external `config.yaml`), passed here as parameters. -/
def detectNet (ddosMin largeKbMin largePktMax : Int) (srcIp : String)
    (pkts vol : Int) : List (String × String) :=
  (if pkts > ddosMin then
     [("DDoS", "Traffic Spike (" ++ toString pkts ++ " pkts) from " ++ srcIp)]
   else []) ++
  (if vol > largeKbMin ∧ pkts < largePktMax then
     [("Large Packet", "Large Packet (" ++ toString vol ++ "KB) from " ++ srcIp)]
   else [])

/-- Python's `l[-n:]`: the last `n` elements when `n ≥ 1`; for `n = 0` the
slice degenerates to `l[0:]`, i.e. the whole list. -/
def pySliceLast (n : Nat) (l : List α) : List α :=
  if n = 0 then l else l.drop (l.length - n)

/-- The last `n` elements (no Python `-0` quirk); `pySliceLast n = takeLast n`
whenever `n ≥ 1`. -/
def takeLast (n : Nat) (l : List α) : List α := l.drop (l.length - n)

/-- Embeds `run`'s recency set: `{a.get('id') for a in alerts[-100:] if 'id' in a}` —
note it collects the **id** fields of the last 100 retained alerts. -/
def seenInit (alerts : List GAlert) : List String :=
  (pySliceLast 100 alerts).map GAlert.id

/-- Embeds `run`'s per-cycle dedup filter:
`for a in cycle_alerts: if a['fingerprint'] not in seen: alerts.append(a); seen.add(a['fingerprint'])`.
Returns the accepted (appended) candidates in order. -/
def acceptNew (seen : List String) : List GAlert → List GAlert
  | [] => []
  | a :: rest =>
      if a.fingerprint ∈ seen then acceptNew seen rest
      else a :: acceptNew (a.fingerprint :: seen) rest

/-- One generator cycle's effect on the retained alert list:
dedup-filter the cycle's candidates against the recency set, append, then trim
with `alerts = alerts[-MAX_ALERTS:]`. -/
def submitStep (maxAlerts : Nat) (alerts : List GAlert) (cycle : List GAlert) :
    List GAlert :=
  pySliceLast maxAlerts (alerts ++ acceptNew (seenInit alerts) cycle)

/-- Iterated generator cycles (the body of `run`'s `while True`, restricted to
its alert-store effect). -/
def runCycles (maxAlerts : Nat) (alerts : List GAlert)
    (cycles : List (List GAlert)) : List GAlert :=
  cycles.foldl (submitStep maxAlerts) alerts

/-- The per-cycle accepted candidates, concatenated across a run (mirrors the
states `runCycles` passes through). -/
def acceptedSeq (maxAlerts : Nat) (alerts : List GAlert) :
    List (List GAlert) → List GAlert
  | [] => []
  | c :: rest =>
      acceptNew (seenInit alerts) c ++
      acceptedSeq maxAlerts (submitStep maxAlerts alerts c) rest

/-! ### `app/app.py` — `threat_level` -/

/-- One element of the merged alert list as far as `threat_level` reads it:
only the (possibly missing) `severity` key matters. -/
structure DAlert where
  severity : Option String
deriving Repr, DecidableEq

/-- The `order` dict of `threat_level`. -/
def sevOrder : List (String × Nat) :=
  [("INFO", 0), ("LOW", 1), ("MEDIUM", 2), ("HIGH", 3), ("CRITICAL", 4)]

/-- The key function `lambda a: order.get(a.get("severity","LOW"),1)`. -/
def alertRank (a : DAlert) : Nat :=
  (sevOrder.lookup (a.severity.getD "LOW")).getD 1

/-- Python's `max(iterable, key=f)` on a nonempty list `x :: xs`: scans left to
right, replacing the current maximum only on a strictly larger key — hence it
returns the first maximal element. -/
def pyMaxBy (f : DAlert → Nat) (x : DAlert) (xs : List DAlert) : DAlert :=
  xs.foldl (fun m y => if f y > f m then y else m) x

def sevKeyMap : List (String × String) :=
  [("CRITICAL", "crit"), ("HIGH", "high"), ("MEDIUM", "med"), ("LOW", "low")]

def sevLabelMap : List (String × String) :=
  [("CRITICAL", "CRITICAL THREAT"), ("HIGH", "HIGH THREAT"),
   ("MEDIUM", "ELEVATED"), ("LOW", "LOW RISK"), ("INFO", "LOW RISK")]

/-- Embeds `threat_level(all_alerts)` from `app/app.py`. -/
def threat_level (l : List DAlert) : String × String :=
  match l with
  | [] => ("ok", "All Systems Normal")
  | a :: rest =>
      let sev := (pyMaxBy alertRank a rest).severity.getD "LOW"
      ((sevKeyMap.lookup sev).getD "ok", (sevLabelMap.lookup sev).getD "LOW RISK")

/-! ### Python/JSON value model (used by `app/suricata_ingest.py`) -/

/-- A JSON value as produced by `json.loads` (numbers restricted to integers:
the eve records this pipeline consumes carry integer ports/ids/priorities). -/
inductive JVal where
  | null
  | bool (b : Bool)
  | num (n : Int)
  | str (s : String)
  | arr (elems : List JVal)
  | obj (fields : List (String × JVal))
deriving Repr

/-- Python truthiness `bool(v)` on a JSON value. -/
def pyTruthy : JVal → Bool
  | .null => false
  | .bool b => b
  | .num n => n ≠ 0
  | .str s => s ≠ ""
  | .arr xs => ¬xs.isEmpty
  | .obj fs => ¬fs.isEmpty

mutual
/-- Python `repr` of a JSON value (enough of it for f-string interpolation of
non-string values: `None`, `True`, numbers, quoted strings, lists, dicts). -/
def pyRepr : JVal → String
  | .null => "None"
  | .bool b => if b then "True" else "False"
  | .num n => toString n
  | .str s => "'" ++ s ++ "'"
  | .arr xs => "[" ++ pyReprList xs ++ "]"
  | .obj fs => "\x7b" ++ pyReprFields fs ++ "\x7d"

def pyReprList : List JVal → String
  | [] => ""
  | [x] => pyRepr x
  | x :: rest => pyRepr x ++ ", " ++ pyReprList rest

def pyReprFields : List (String × JVal) → String
  | [] => ""
  | [(k, v)] => "'" ++ k ++ "': " ++ pyRepr v
  | (k, v) :: rest => "'" ++ k ++ "': " ++ pyRepr v ++ ", " ++ pyReprFields rest
end

/-- Python `str(v)` / f-string interpolation of a JSON value. -/
def pyToStr : JVal → String
  | .str s => s
  | v => pyRepr v

/-- f-string interpolation of `d.get(k)` (missing key renders as `None`). -/
def pyGetStr (v : Option JVal) : String :=
  match v with
  | none => "None"
  | some v => pyToStr v

/-- Python `int(s)` on a string: optional surrounding whitespace, optional
sign, then a nonempty digit run (underscore grouping not modelled). -/
def digitsToNat : List Char → Option Nat
  | [] => none
  | cs => cs.foldl (fun acc c =>
      match acc with
      | none => none
      | some n => if c.isDigit then some (n * 10 + (c.toNat - 48)) else none)
      (some 0)

def pyIntOfString (s : String) : Option Int :=
  let cs := (s.data.dropWhile Char.isWhitespace).reverse.dropWhile Char.isWhitespace |>.reverse
  match cs with
  | '+' :: rest => (digitsToNat rest).map Int.ofNat
  | '-' :: rest => (digitsToNat rest).map (fun n => -(n : Int))
  | rest => (digitsToNat rest).map Int.ofNat

/-- Python `int(v)` on a JSON value: ints pass through, bools become 0/1,
numeric strings are parsed; everything else raises (`none`). -/
def pyInt : JVal → Option Int
  | .num n => some n
  | .bool b => some (if b then 1 else 0)
  | .str s => pyIntOfString s
  | _ => none

/-- Python `s.lower()` / `s.upper()` (ASCII, which covers the signature and
protocol strings this code handles). -/
def pyLower (s : String) : String := ⟨s.data.map Char.toLower⟩
def pyUpper (s : String) : String := ⟨s.data.map Char.toUpper⟩

/-- Python `s.strip()`. -/
def pyStrip (s : String) : String :=
  ⟨(s.data.dropWhile Char.isWhitespace).reverse.dropWhile Char.isWhitespace |>.reverse⟩

def isPrefixB : List Char → List Char → Bool
  | [], _ => true
  | _, [] => false
  | a :: as, b :: bs => a = b && isPrefixB as bs

def isInfixB (n : List Char) : List Char → Bool
  | [] => n.isEmpty
  | c :: rest => isPrefixB n (c :: rest) || isInfixB n rest

/-- Python `a in b` on strings (substring containment). -/
def pyInStr (needle haystack : String) : Bool :=
  isInfixB needle.data haystack.data

/-! #### A small JSON parser (the slice of `json.loads` these log lines use:
objects, arrays, strings with the common escapes, integers, booleans, null) -/

def skipWs (cs : List Char) : List Char :=
  cs.dropWhile (fun c => c = ' ' ∨ c = '\t' ∨ c = '\n' ∨ c = '\r')

/-- Parse the body of a string literal (after the opening quote). -/
def parseStrBody : List Char → Option (String × List Char) :=
  go []
where
  go (acc : List Char) : List Char → Option (String × List Char)
    | [] => none
    | '"' :: rest => some (⟨acc.reverse⟩, rest)
    | '\\' :: e :: rest =>
        (match e with
         | '"' => some '"'
         | '\\' => some '\\'
         | '/' => some '/'
         | 'n' => some '\n'
         | 't' => some '\t'
         | 'r' => some '\r'
         | _ => none).bind (fun c => go (c :: acc) rest)
    | c :: rest => go (c :: acc) rest

def parseNatDigits : List Char → Option (Nat × List Char)
  | cs =>
      let ds := cs.takeWhile Char.isDigit
      if ds.isEmpty then none
      else
        match digitsToNat ds with
        | some n => some (n, cs.drop ds.length)
        | none => none

mutual
def parseJVal : Nat → List Char → Option (JVal × List Char)
  | 0, _ => none
  | fuel+1, cs =>
      match skipWs cs with
      | '"' :: rest => (parseStrBody rest).map (fun p => (.str p.1, p.2))
      | 'n' :: 'u' :: 'l' :: 'l' :: rest => some (.null, rest)
      | 't' :: 'r' :: 'u' :: 'e' :: rest => some (.bool true, rest)
      | 'f' :: 'a' :: 'l' :: 's' :: 'e' :: rest => some (.bool false, rest)
      | '[' :: rest => (parseArrItems fuel (skipWs rest) true).map (fun p => (.arr p.1, p.2))
      | '\x7b' :: rest => (parseObjItems fuel (skipWs rest) true).map (fun p => (.obj p.1, p.2))
      | '-' :: rest => (parseNatDigits rest).map (fun p => (.num (-(p.1 : Int)), p.2))
      | rest => (parseNatDigits rest).map (fun p => (.num (p.1 : Int), p.2))

def parseArrItems : Nat → List Char → Bool → Option (List JVal × List Char)
  | 0, _, _ => none
  | _+1, ']' :: rest, true => some ([], rest)
  | fuel+1, cs, _first =>
      match parseJVal fuel cs with
      | none => none
      | some (v, rest) =>
          match skipWs rest with
          | ',' :: rest2 =>
              (parseArrItems fuel (skipWs rest2) false).map (fun p => (v :: p.1, p.2))
          | ']' :: rest2 => some ([v], rest2)
          | _ => none

def parseObjItems : Nat → List Char → Bool → Option (List (String × JVal) × List Char)
  | 0, _, _ => none
  | _+1, '\x7d' :: rest, true => some ([], rest)
  | fuel+1, cs, _first =>
      match skipWs cs with
      | '"' :: rest =>
          match parseStrBody rest with
          | none => none
          | some (k, rest2) =>
              match skipWs rest2 with
              | ':' :: rest3 =>
                  match parseJVal fuel rest3 with
                  | none => none
                  | some (v, rest4) =>
                      match skipWs rest4 with
                      | ',' :: rest5 =>
                          (parseObjItems fuel (skipWs rest5) false).map
                            (fun p => ((k, v) :: p.1, p.2))
                      | '\x7d' :: rest5 => some ([(k, v)], rest5)
                      | _ => none
              | _ => none
      | _ => none
end

/-- Embeds `json.loads` on one line (restricted as documented above): parse one value
and require only whitespace after it. -/
def jsonLoads (s : String) : Option JVal :=
  match parseJVal (s.length + 1) s.data with
  | some (v, rest) => if (skipWs rest).isEmpty then some v else none
  | none => none

/-! #### `datetime.fromisoformat` (the slice used by `is_duplicate` and
`cleanup_old_alerts`: `YYYY-MM-DD?HH:MM:SS` with an optional `±HH:MM` offset;
fractional seconds are not exercised by this pipeline's whole-second
timestamps).  A parsed instant is `(epoch seconds, aware?)`; subtracting a
naive from an aware datetime raises in Python, so the subtraction is partial. -/

def isLeapYear (y : Nat) : Bool :=
  y % 4 = 0 && (y % 100 ≠ 0 || y % 400 = 0)

def daysInMonth (y m : Nat) : Nat :=
  if m = 2 then (if isLeapYear y then 29 else 28)
  else if m = 4 ∨ m = 6 ∨ m = 9 ∨ m = 11 then 30
  else 31

/-- Days from 1970-01-01 to year `y`, month `m`, day `d` (civil calendar,
valid for `1 ≤ y`, `1 ≤ m ≤ 12`). -/
def daysFromCivil (y m d : Nat) : Int :=
  let y' := if m ≤ 2 then y - 1 else y
  let era := y' / 400
  let yoe := y' % 400
  let mp := (m + 9) % 12
  let doy := (153 * mp + 2) / 5 + d - 1
  let doe := yoe * 365 + yoe / 4 - yoe / 100 + doy
  (era * 146097 + doe : Int) - 719468

def digit (c : Char) : Option Nat :=
  if c.isDigit then some (c.toNat - 48) else none

def digit2 (a b : Char) : Option Nat :=
  match digit a, digit b with
  | some x, some y => some (x * 10 + y)
  | _, _ => none

def digit4 (a b c d : Char) : Option Nat :=
  match digit2 a b, digit2 c d with
  | some x, some y => some (x * 100 + y)
  | _, _ => none

/-- Parse the optional timezone suffix; `some (offsetMinutes, aware)`. -/
def parseTzSuffix : List Char → Option (Int × Bool)
  | [] => some (0, false)
  | sign :: o1 :: o2 :: ':' :: p1 :: p2 :: [] =>
      match digit2 o1 o2, digit2 p1 p2 with
      | some oh, some om =>
          if (sign = '+' ∨ sign = '-') ∧ oh ≤ 23 ∧ om ≤ 59 then
            some (if sign = '-' then -((oh * 60 + om : Nat) : Int)
                  else ((oh * 60 + om : Nat) : Int), true)
          else none
      | _, _ => none
  | _ => none

/-- Embeds `datetime.fromisoformat` (restricted as documented above) followed by a
conversion to epoch seconds; `none` models the `ValueError` it raises. -/
def fromIso (s : String) : Option (Int × Bool) :=
  match s.data with
  | y1 :: y2 :: y3 :: y4 :: '-' :: m1 :: m2 :: '-' :: d1 :: d2 :: _sep ::
    h1 :: h2 :: ':' :: n1 :: n2 :: ':' :: s1 :: s2 :: rest =>
      match digit4 y1 y2 y3 y4, digit2 m1 m2, digit2 d1 d2,
            digit2 h1 h2, digit2 n1 n2, digit2 s1 s2 with
      | some y, some mo, some d, some hh, some mi, some ss =>
          if 1 ≤ y ∧ 1 ≤ mo ∧ mo ≤ 12 ∧ 1 ≤ d ∧ d ≤ daysInMonth y mo ∧
             hh ≤ 23 ∧ mi ≤ 59 ∧ ss ≤ 59 then
            match parseTzSuffix rest with
            | some (offMin, aware) =>
                some (daysFromCivil y mo d * 86400 +
                      ((hh * 3600 + mi * 60 + ss : Nat) : Int) - offMin * 60, aware)
            | none => none
          else none
      | _, _, _, _, _, _ => none
  | _ => none

/-- Python `ts.replace('Z', '+00:00')` (all occurrences, as `str.replace`). -/
def pyReplaceZ (s : String) : String :=
  ⟨s.data.flatMap (fun c => if c = 'Z' then ('+' :: '0' :: '0' :: ':' :: '0' :: '0' :: []) else [c])⟩

/-- Embeds `datetime.fromisoformat(v.replace('Z','+00:00'))` applied to a cached or
current timestamp value; non-strings raise (`.replace` on a non-`str`). -/
def jStrTime (v : JVal) : Except Unit (Int × Bool) :=
  match v with
  | .str s =>
      match fromIso (pyReplaceZ s) with
      | some t => .ok t
      | none => .error ()
  | _ => .error ()

/-- Embeds `(a - b).total_seconds()`: defined only when the two datetimes agree on
awareness (mixing naive and aware raises `TypeError`). -/
def pyDtDiff (a b : Int × Bool) : Except Unit Int :=
  if a.2 = b.2 then .ok (a.1 - b.1) else .error ()

/-! ### `app/suricata_ingest.py` -/

def MAX_EVENTS : Nat := 1000
def DEDUP_WINDOW : Int := 300
def BATCH_SIZE : Nat := 50

/-- Embeds `get_severity_from_priority(priority)`: `int(priority)` then the 1/2/3
table with numeric fallback `LOW`; a failed conversion
(`ValueError`/`TypeError`) yields `MEDIUM`. -/
def get_severity_from_priority (v : JVal) : String :=
  match pyInt v with
  | some p =>
      if p = 1 then "CRITICAL"
      else if p = 2 then "HIGH"
      else if p = 3 then "MEDIUM"
      else "LOW"
  | none => "MEDIUM"

/-- Embeds `get_alert_category(signature)`: keyword buckets over
`signature.lower() if signature else ""`; `.lower()` on a truthy non-string
raises. -/
def get_alert_category (signature : JVal) : Except Unit String :=
  let lowered : Except Unit String :=
    if pyTruthy signature then
      match signature with
      | .str s => .ok (pyLower s)
      | _ => .error ()
    else .ok ""
  match lowered with
  | .error e => .error e
  | .ok sigLower =>
      if ["trojan", "malware", "backdoor", "virus"].any (pyInStr · sigLower) then
        .ok "Malware"
      else if ["dos", "flood", "scan"].any (pyInStr · sigLower) then
        .ok "Network Attack"
      else if ["exploit", "shellcode", "rce"].any (pyInStr · sigLower) then
        .ok "Exploitation"
      else if ["dns", "domain", "c2", "botnet"].any (pyInStr · sigLower) then
        .ok "C2 Communication"
      else if ["web", "http", "sql", "xss"].any (pyInStr · sigLower) then
        .ok "Web Attack"
      else .ok "General"

/-- Embeds `create_alert_hash(alert_data)`: the first 12 hex characters of the MD5 of
`f"{alert_data.get('src_ip')}-{alert_data.get('dest_ip')}-{alert_data.get('signature_id')}"`
(each missing key rendering as `None`). -/
def create_alert_hash (d : List (String × JVal)) : String :=
  let keyData := pyGetStr (d.lookup "src_ip") ++ "-" ++ pyGetStr (d.lookup "dest_ip")
                 ++ "-" ++ pyGetStr (d.lookup "signature_id")
  (md5Hex (utf8 keyData)).take 12

/-- The standardized alert dict built by `parse_suricata_alert`.  Fields kept
with the types the Python dict actually holds: values taken verbatim from the
JSON stay `JVal`; values passed through `int(...)` / f-strings /
`get_severity_from_priority` become `Int` / `String`. -/
structure PAlert where
  id : String
  timestamp : JVal
  source : String
  severity : String
  priority : Int
  type : String
  signature : JVal
  signatureId : Int
  category : JVal
  host : JVal
  srcIp : JVal
  destIp : JVal
  srcPort : Int
  destPort : Int
  protocol : String
  flowState : JVal
  description : String
  reason : String
  details : String
  status : String
  rawEvent : List (String × JVal)
deriving Repr

/-- Embeds `parse_suricata_alert(eve_line)`.  `nowTs` stands for the
`datetime.utcnow().isoformat() + "Z"` default taken when the record has no
timestamp.  `Except.error` models an uncaught exception escaping the function
(only `json.JSONDecodeError`/`ValueError` from `json.loads` is caught inside,
yielding `None`); `Except.ok none` is an explicit `return None`. -/
def parse_suricata_alert (nowTs : String) (eveLine : String) :
    Except Unit (Option PAlert) :=
  match jsonLoads (pyStrip eveLine) with
  | none => .ok none
  | some top =>
      match top with
      | JVal.obj fields =>
          -- if obj.get("event_type") != "alert": return None
          match fields.lookup "event_type" with
          | some (JVal.str et) =>
              if et = "alert" then
                -- alert = obj.get("alert", {}); flow = obj.get("flow", {})
                match (fields.lookup "alert").getD (JVal.obj []),
                      (fields.lookup "flow").getD (JVal.obj []) with
                | JVal.obj alertFields, JVal.obj flowFields =>
                    let timestamp := (fields.lookup "timestamp").getD (.str nowTs)
                    let srcIp := (fields.lookup "src_ip").getD (.str "unknown")
                    let destIp := (fields.lookup "dest_ip").getD (.str "unknown")
                    let srcPort := (fields.lookup "src_port").getD (.num 0)
                    let destPort := (fields.lookup "dest_port").getD (.num 0)
                    let signature := (alertFields.lookup "signature").getD (.str "Unknown Alert")
                    let signatureId := (alertFields.lookup "signature_id").getD (.num 0)
                    let category := (alertFields.lookup "category").getD (.str "Unknown")
                    let priority := (alertFields.lookup "priority").getD (.num 3)
                    let severity := get_severity_from_priority priority
                    match get_alert_category signature with
                    | .error _ => .error ()
                    | .ok alertCategory =>
                        -- protocol = obj.get("proto", "unknown").upper()
                        match (fields.lookup "proto").getD (.str "unknown") with
                        | JVal.str protoRaw =>
                            let protocol := pyUpper protoRaw
                            let flowState := (flowFields.lookup "state").getD (.str "unknown")
                            -- the int(...) coercions in the dict literal may raise
                            match pyInt priority, pyInt signatureId,
                                  pyInt srcPort, pyInt destPort with
                            | some prio, some sigId, some sPort, some dPort =>
                                .ok (some
                                  { id := "SUR_" ++ pyToStr signatureId ++ "_" ++
                                          create_alert_hash fields
                                    timestamp := timestamp
                                    source := "Suricata IDS"
                                    severity := severity
                                    priority := prio
                                    type := alertCategory
                                    signature := signature
                                    signatureId := sigId
                                    category := category
                                    host := srcIp
                                    srcIp := srcIp
                                    destIp := destIp
                                    srcPort := sPort
                                    destPort := dPort
                                    protocol := protocol
                                    flowState := flowState
                                    description := pyToStr signature ++ " (" ++ protocol ++
                                      " " ++ pyToStr srcIp ++ ":" ++ pyToStr srcPort ++
                                      " -> " ++ pyToStr destIp ++ ":" ++ pyToStr destPort ++ ")"
                                    reason := "Suricata Rule " ++ pyToStr signatureId ++
                                      ": " ++ pyToStr category
                                    details := "Alert triggered by signature '" ++
                                      pyToStr signature ++ "' from " ++ pyToStr srcIp ++
                                      " to " ++ pyToStr destIp
                                    status := "active"
                                    rawEvent := fields })
                            | _, _, _, _ => .error ()
                        | _ => .error ()  -- .upper() on a non-string raises
                | _, _ => .error ()  -- .get on a non-dict "alert"/"flow" raises
              else .ok none
          | _ => .ok none  -- missing or non-"alert" event_type
      | _ => .error ()  -- obj.get on a non-dict top-level value raises

/-- Ordered-dict update, as assignment to a Python dict key: replaces the
value in place if the key exists, otherwise appends a new entry. -/
def dictSet (d : List (String × JVal)) (k : String) (v : JVal) :
    List (String × JVal) :=
  if (d.lookup k).isSome then
    d.map (fun kv => if kv.1 = k then (k, v) else kv)
  else d ++ [(k, v)]

/-- Embeds `SuricataProcessor.is_duplicate(alert)`.  State: the `alert_cache` dict
(hash ↦ cached timestamp value) and the `duplicates` counter.  Returns the
verdict plus the updated state; `Except.error` models an exception raised by
`fromisoformat`/`.replace` on malformed or non-string timestamps (the cache
is only assigned on the non-duplicate path, after those calls). -/
def is_duplicate (cache : List (String × JVal)) (dups : Nat) (a : PAlert) :
    Except Unit (Bool × List (String × JVal) × Nat) :=
  let h := create_alert_hash a.rawEvent
  match cache.lookup h with
  | some lastSeen =>
      match jStrTime lastSeen with
      | .error _ => .error ()
      | .ok lastTime =>
          match jStrTime a.timestamp with
          | .error _ => .error ()
          | .ok currentDt =>
              match pyDtDiff currentDt lastTime with
              | .error _ => .error ()
              | .ok diff =>
                  if diff < DEDUP_WINDOW then .ok (true, cache, dups + 1)
                  else .ok (false, dictSet cache h a.timestamp, dups)
  | none => .ok (false, dictSet cache h a.timestamp, dups)

/-- The 4 counters of `SuricataProcessor.stats` that the reader loop touches. -/
structure Stats where
  processed : Nat
  alerts : Nat
  duplicates : Nat
  errors : Nat
deriving Repr, DecidableEq

/-- The loop body of `process_new_lines` for one line: count it, try to parse
it, dedup-check, and collect the accepted alert; any exception from the
parse/dedup block is caught and counted in `stats["errors"]`. -/
def processLine (nowTs : String)
    (acc : List PAlert × List (String × JVal) × Stats) (line : String) :
    List PAlert × List (String × JVal) × Stats :=
  let alerts := acc.1
  let cache := acc.2.1
  let stats := acc.2.2
  let stats := { stats with processed := stats.processed + 1 }
  match parse_suricata_alert nowTs line with
  | .error _ => (alerts, cache, { stats with errors := stats.errors + 1 })
  | .ok none => (alerts, cache, stats)
  | .ok (some a) =>
      match is_duplicate cache stats.duplicates a with
      | .error _ => (alerts, cache, { stats with errors := stats.errors + 1 })
      | .ok (true, cache', dups') => (alerts, cache', { stats with duplicates := dups' })
      | .ok (false, cache', dups') =>
          (alerts ++ [a], cache', { stats with duplicates := dups', alerts := stats.alerts + 1 })

/-- Reader state: the persisted byte offset plus the in-memory dedup cache and
counters. -/
structure RState where
  lastPosition : Nat
  cache : List (String × JVal)
  stats : Stats
deriving Repr

/-- Byte length of a string's UTF-8 encoding (`os.path.getsize` and `f.tell`
positions are byte offsets). -/
def byteLen (s : String) : Nat := (utf8 s).length

/-- Drop the first `n` UTF-8 bytes of a character stream (the reader's
offsets always fall on line boundaries, hence on character boundaries). -/
def byteDropChars : List Char → Nat → List Char
  | cs, 0 => cs
  | [], _ => []
  | c :: rest, n+1 => byteDropChars rest (n + 1 - (utf8Char c).length)

/-- Python text-mode line iteration (newline-terminated lines keep their
terminator; a trailing unterminated chunk is its own line). -/
def splitLinesAux : List Char → List Char → List String
  | [], [] => []
  | [], cur => [⟨cur.reverse⟩]
  | c :: rest, cur =>
      if c = '\n' then ⟨(c :: cur).reverse⟩ :: splitLinesAux rest []
      else splitLinesAux rest (c :: cur)

def pyLines (s : String) : List String := splitLinesAux s.data []

/-- The read-and-process phase of `process_new_lines`, starting at byte offset
`pos0`: seek there and iterate lines, breaking once `BATCH_SIZE` lines have
been processed.  When fewer than `BATCH_SIZE` lines are pending the loop ends
by exhaustion, `f.tell()` is legal, and the offset advances past the consumed
lines.  When `BATCH_SIZE` or more lines are pending the loop exits via
`break`; CPython then leaves the text iterator with telling disabled, so
`self.last_position = f.tell()` raises `OSError` ("telling position disabled
by next() call").  That exception escapes the `with` block into the outer
`except`, which increments `stats["errors"]` and returns `[]`: the batch is
discarded, while the offset keeps the value `pos0` it was assigned before the
read and the `self.alert_cache` / `self.stats` mutations made while
processing the first `BATCH_SIZE` lines persist. -/
def readFrom (content nowTs : String) (st : RState) (pos0 : Nat) :
    List PAlert × RState :=
  let lines := pyLines ⟨byteDropChars content.data pos0⟩
  let consumed := lines.take BATCH_SIZE
  let res := consumed.foldl (processLine nowTs) ([], st.cache, st.stats)
  if lines.length < BATCH_SIZE then
    (res.1, ⟨pos0 + (consumed.map byteLen).sum, res.2.1, res.2.2⟩)
  else
    ([], ⟨pos0, res.2.1, { res.2.2 with errors := res.2.2.errors + 1 }⟩)

/-- Embeds `SuricataProcessor.process_new_lines()` over a file snapshot: missing file
is idle; a size smaller than the recorded offset resets the offset to 0
(rotation/truncation, the assignment to `self.last_position` persisting);
an unchanged size reads nothing; otherwise read from the recorded offset via
`readFrom` — including its `f.tell()`-raises path when `BATCH_SIZE` or more
lines are pending, on which the batch is discarded, an error is counted, and
the offset does not advance. -/
def process_new_lines (fileExists : Bool) (content nowTs : String)
    (st : RState) : List PAlert × RState :=
  if fileExists then
    let currentSize := byteLen content
    let pos0 := if currentSize < st.lastPosition then 0 else st.lastPosition
    if currentSize = pos0 then ([], { st with lastPosition := pos0 })
    else readFrom content nowTs st pos0
  else ([], st)

/-- The retention trim in `SuricataProcessor.cleanup_old_alerts`:
`return alerts[-MAX_EVENTS:]` (the cache-eviction part touches only the dedup
cache, not the retained list). -/
def cleanupRetention (events : List PAlert) : List PAlert :=
  pySliceLast MAX_EVENTS events

/-! ## Supporting lemmas -/

theorem stringDataInj {a b : String} (h : a.data = b.data) : a = b := by
  cases a; cases b; exact congrArg String.mk h

theorem stringAppendCancelLeft {a x y : String} (h : a ++ x = a ++ y) : x = y := by
  have h2 : a.data ++ x.data = a.data ++ y.data := by
    rw [← String.data_append, ← String.data_append, h]
  exact stringDataInj (List.append_cancel_left h2)

/-- UTF-8 encoding is a monoid homomorphism for string concatenation. -/
theorem utf8_append (a b : String) : utf8 (a ++ b) = utf8 a ++ utf8 b := by
  cases a; cases b
  simp [utf8, String.data_append]

/-- The byte stream `sha1_fingerprint` hashes for four string parts is exactly
the UTF-8 encoding of their concatenation. -/
theorem sha1_fingerprint_concat (a b c d : String) :
    sha1_fingerprint [some a, some b, some c, some d] =
      sha1Hex (utf8 (a ++ b ++ c ++ d)) := by
  simp [sha1_fingerprint, utf8_append]

/-! ## Claims C2 and C10 — fingerprint properties -/

/-- Claim **C2** (idempotent fingerprinting): for a fixed `(source, type,
description)`, two timestamps with the same first 16 ISO characters (minute
bucket) give `build_alert` the same fingerprint — `sha1_fingerprint` is a pure
function of its inputs; timestamps in different minute buckets produce
different hashed inputs (the concatenation the SHA-1 consumes), so the
fingerprints may differ. -/
theorem fingerprint_minute_bucket (src typ desc ts₁ ts₂ : String) :
    (ts₁.take 16 = ts₂.take 16 →
      buildAlertFp src typ desc ts₁ = buildAlertFp src typ desc ts₂)
    ∧ (ts₁.take 16 ≠ ts₂.take 16 →
      fpInput src typ desc ts₁ ≠ fpInput src typ desc ts₂)
    ∧ buildAlertFp src typ desc ts₁ = sha1Hex (utf8 (fpInput src typ desc ts₁)) := by
  refine ⟨fun h => ?_, fun h hEq => h ?_, ?_⟩
  · unfold buildAlertFp; rw [h]
  · exact stringAppendCancelLeft (a := src ++ typ ++ desc) hEq
  · simpa [fpInput] using sha1_fingerprint_concat src typ desc (ts₁.take 16)

theorem fingerprint_minute_bucket_witness :
    buildAlertFp "SIM" "High Temp" "x" "2025-03-01T00:00:10+00:00"
      = buildAlertFp "SIM" "High Temp" "x" "2025-03-01T00:00:59+00:00"
    ∧ fpInput "SIM" "High Temp" "x" "2025-03-01T00:00:10+00:00"
      ≠ fpInput "SIM" "High Temp" "x" "2025-03-01T00:01:11+00:00" :=
  ⟨(fingerprint_minute_bucket "SIM" "High Temp" "x" _ _).1 (by decide),
   (fingerprint_minute_bucket "SIM" "High Temp" "x" _ _).2.1 (by decide)⟩

/-- Claim **C10** (fingerprint boundary collisions): `sha1_fingerprint` hashes the
bare UTF-8 concatenation of its parts with no separator, maps `None` to the
empty string, and therefore identifies any two argument tuples whose
concatenations agree — in particular redistributing characters across
adjacent fields changes nothing. -/
theorem fingerprint_concat_collisions :
    (∀ a b c d e : String,
      sha1_fingerprint [some (a ++ b), some c, some d, some e]
        = sha1_fingerprint [some a, some (b ++ c), some d, some e])
    ∧ (∀ x y z : Option String,
      sha1_fingerprint [none, x, y, z] = sha1_fingerprint [some "", x, y, z])
    ∧ (∀ a₁ b₁ c₁ d₁ a₂ b₂ c₂ d₂ : String,
      a₁ ++ b₁ ++ c₁ ++ d₁ = a₂ ++ b₂ ++ c₂ ++ d₂ →
      sha1_fingerprint [some a₁, some b₁, some c₁, some d₁]
        = sha1_fingerprint [some a₂, some b₂, some c₂, some d₂]) := by
  refine ⟨fun a b c d e => ?_, fun x y z => rfl,
          fun a₁ b₁ c₁ d₁ a₂ b₂ c₂ d₂ h => ?_⟩
  · rw [sha1_fingerprint_concat, sha1_fingerprint_concat]
    apply congrArg
    apply congrArg
    apply stringDataInj
    simp [String.data_append]
  · rw [sha1_fingerprint_concat, sha1_fingerprint_concat, h]

theorem fingerprint_concat_collisions_witness :
    sha1_fingerprint [some "ab", some "c", some "d", some "e"]
      = sha1_fingerprint [some "a", some "bc", some "d", some "e"] :=
  fingerprint_concat_collisions.2.2 "ab" "c" "d" "e" "a" "bc" "d" "e" (by decide)

/-! ## Claim C9 — DDoS / Large-Packet rule guard -/

/-- Claim **C9**: on a network-traffic record, "DDoS" fires iff the packet count
exceeds the ddos threshold, "Large Packet" fires iff the volume exceeds the
size threshold while the packet count stays below the large-packet ceiling;
with a ceiling ≤ 50000 and a ddos threshold < 50000, a record with
`packet_count = 50000` emits exactly one "DDoS" candidate and nothing else. -/
theorem ddos_large_packet_guard (ddosMin largeKbMin largePktMax vol pkts : Int)
    (srcIp : String) :
    (("DDoS" ∈ (detectNet ddosMin largeKbMin largePktMax srcIp pkts vol).map Prod.fst)
      ↔ pkts > ddosMin)
    ∧ (("Large Packet" ∈ (detectNet ddosMin largeKbMin largePktMax srcIp pkts vol).map Prod.fst)
      ↔ (vol > largeKbMin ∧ pkts < largePktMax))
    ∧ (largePktMax ≤ 50000 → ddosMin < 50000 → pkts = 50000 →
      (detectNet ddosMin largeKbMin largePktMax srcIp pkts vol).map Prod.fst = ["DDoS"]) := by
  refine ⟨?_, ?_, fun hmax hddos hpk => ?_⟩
  · by_cases h1 : pkts > ddosMin <;>
      by_cases h2 : vol > largeKbMin ∧ pkts < largePktMax <;>
      simp [detectNet, h1, h2]
  · by_cases h1 : pkts > ddosMin <;>
      by_cases h2 : vol > largeKbMin ∧ pkts < largePktMax <;>
      simp [detectNet, h1, h2]
  · subst hpk
    have h1 : (50000 : Int) > ddosMin := hddos
    have h2 : ¬(vol > largeKbMin ∧ (50000 : Int) < largePktMax) := by omega
    simp [detectNet, h1, h2]

theorem ddos_large_packet_guard_witness :
    (detectNet 1000 2000 10000 "172.16.0.9" 50000 123).map Prod.fst = ["DDoS"] :=
  (ddos_large_packet_guard 1000 2000 10000 123 50000 "172.16.0.9").2.2
    (by decide) (by decide) (by decide)

/-! ## Claim C5 — severity defaulting -/

/-- Claim **C5, counterexample**: the claim says every unrecognized IDS priority —
including numeric priorities outside 1–3 — maps to `MEDIUM`; the code's
numeric fallback is `LOW` (priority 4 lands in the final `else`). -/
theorem priority_out_of_range_not_medium :
    get_severity_from_priority (JVal.num 4) = "LOW"
    ∧ get_severity_from_priority (JVal.num 4) ≠ "MEDIUM" := by decide

/-- Claim **C5, amended**: unknown alert types map to `LOW`; priorities 1/2/3 map to
`CRITICAL`/`HIGH`/`MEDIUM`; any other value that `int(...)` converts (numbers
out of range, numeric strings, booleans) maps to `LOW`; only values whose
conversion raises (`ValueError`/`TypeError`) map to `MEDIUM`. -/
theorem severity_defaulting :
    (∀ t : String, severityTable.lookup t = none → severity_from_type t = "LOW")
    ∧ get_severity_from_priority (JVal.num 1) = "CRITICAL"
    ∧ get_severity_from_priority (JVal.num 2) = "HIGH"
    ∧ get_severity_from_priority (JVal.num 3) = "MEDIUM"
    ∧ (∀ n : Int, n ≠ 1 → n ≠ 2 → n ≠ 3 →
        get_severity_from_priority (JVal.num n) = "LOW")
    ∧ (∀ v : JVal, pyInt v = none → get_severity_from_priority v = "MEDIUM") := by
  refine ⟨fun t h => ?_, by decide, by decide, by decide,
          fun n h1 h2 h3 => ?_, fun v h => ?_⟩
  · simp [severity_from_type, h]
  · simp [get_severity_from_priority, pyInt, h1, h2, h3]
  · simp [get_severity_from_priority, h]

theorem severity_defaulting_witness :
    severity_from_type "Totally Unknown" = "LOW"
    ∧ get_severity_from_priority (JVal.num 7) = "LOW"
    ∧ get_severity_from_priority JVal.null = "MEDIUM" :=
  ⟨severity_defaulting.1 "Totally Unknown" (by decide),
   severity_defaulting.2.2.2.2.1 7 (by decide) (by decide) (by decide),
   severity_defaulting.2.2.2.2.2 JVal.null (by decide)⟩

/-! ## Claim C1 — dedup rejection in the generator's submit loop -/

def exPrior : List GAlert :=
  [⟨"a1", "SIM", "High Temp", "HIGH", "2025-03-01T00:00:00+00:00", "d1", "fp-X"⟩]

def exDup : GAlert :=
  ⟨"b2", "SIM", "High Temp", "HIGH", "2025-03-01T00:01:00+00:00", "d1", "fp-X"⟩

def exDup2 : GAlert :=
  ⟨"c3", "SIM", "High Temp", "HIGH", "2025-03-01T00:01:00+00:00", "d1", "fp-X"⟩

/-- Claim **C1** (bug evaluation): the recency set is built from the **id** fields
(`{a.get('id') for a in alerts[-100:] ...}`) yet membership-tested against
candidate **fingerprints**, contradicting the claim and the code's own
comment "de-dupe recent (by fingerprint) within last 100 alerts".  With one
retained alert of fingerprint "fp-X", a next-cycle candidate with the same
fingerprint is accepted, leaving two alerts with that fingerprint; only the
same-cycle half of the dedup works (the set does accumulate fingerprints of
candidates accepted in the current cycle). -/
theorem dedup_cross_cycle_bug :
    acceptNew (seenInit exPrior) [exDup] = [exDup]
    ∧ ((submitStep 500 exPrior [exDup]).filter
        (fun x => x.fingerprint == "fp-X")).length = 2
    ∧ acceptNew (seenInit exPrior) [exDup, exDup2] = [exDup] := by decide

/-! ## Claim C3 — retention cap with FIFO eviction -/

theorem takeLast_eq_pySliceLast (n : Nat) (hn : 1 ≤ n) (l : List α) :
    pySliceLast n l = takeLast n l := by
  unfold pySliceLast takeLast
  rw [if_neg (by omega)]

theorem takeLast_of_le {n : Nat} {l : List α} (h : l.length ≤ n) :
    takeLast n l = l := by
  unfold takeLast
  rw [(by omega : l.length - n = 0), List.drop_zero]

theorem length_takeLast_le (n : Nat) (l : List α) : (takeLast n l).length ≤ n := by
  unfold takeLast
  rw [List.length_drop]
  omega

theorem takeLast_append_right {n : Nat} {b : List α} (a : List α)
    (h : n ≤ b.length) : takeLast n (a ++ b) = takeLast n b := by
  unfold takeLast
  rw [(by simp [List.length_append]; omega :
        (a ++ b).length - n = a.length + (b.length - n))]
  simp [List.drop_append]

theorem takeLast_append_left {n : Nat} {a b : List α} (h : b.length ≤ n) :
    takeLast n (a ++ b) = takeLast (n - b.length) a ++ b := by
  unfold takeLast
  rw [(by simp [List.length_append]; omega :
        (a ++ b).length - n = a.length - (n - b.length)),
      List.drop_append_of_le_length (by omega)]

theorem takeLast_takeLast {m n : Nat} (h : m ≤ n) (l : List α) :
    takeLast m (takeLast n l) = takeLast m l := by
  unfold takeLast
  rw [List.length_drop, List.drop_drop]
  congr 1
  omega

theorem takeLast_append_takeLast (n : Nat) (a b : List α) :
    takeLast n (takeLast n a ++ b) = takeLast n (a ++ b) := by
  rcases le_or_lt n b.length with h | h
  · rw [takeLast_append_right _ h, takeLast_append_right _ h]
  · rw [takeLast_append_left (le_of_lt h), takeLast_append_left (le_of_lt h),
        takeLast_takeLast (by omega)]

/-- The retained list after any run is the last `m` of the initial list
followed by all accepted candidates (for a positive cap). -/
theorem runCycles_eq_takeLast (m : Nat) (hm : 1 ≤ m) :
    ∀ (cycles : List (List GAlert)) (init : List GAlert), init.length ≤ m →
    runCycles m init cycles = takeLast m (init ++ acceptedSeq m init cycles) := by
  intro cycles
  induction cycles with
  | nil =>
      intro init h
      simp only [runCycles, List.foldl_nil, acceptedSeq, List.append_nil]
      exact (takeLast_of_le h).symm
  | cons c rest ih =>
      intro init h
      have hstep : submitStep m init c
          = takeLast m (init ++ acceptNew (seenInit init) c) := by
        unfold submitStep
        rw [takeLast_eq_pySliceLast m hm]
      calc runCycles m init (c :: rest)
          = runCycles m (submitStep m init c) rest := rfl
        _ = takeLast m (submitStep m init c
              ++ acceptedSeq m (submitStep m init c) rest) := by
              refine ih _ ?_
              rw [hstep]
              exact length_takeLast_le m _
        _ = takeLast m (takeLast m (init ++ acceptNew (seenInit init) c)
              ++ acceptedSeq m (submitStep m init c) rest) := by rw [← hstep]
        _ = takeLast m ((init ++ acceptNew (seenInit init) c)
              ++ acceptedSeq m (submitStep m init c) rest) :=
              takeLast_append_takeLast m _ _
        _ = takeLast m (init ++ acceptedSeq m init (c :: rest)) := by
              rw [List.append_assoc]
              rfl

/-- Claim **C3, amended** (cap ≥ 1): starting from an empty store, if the dedup
filter accepts `cap + k` alerts over any number of cycles (`k > 0`), the
retained list after the run holds exactly `cap` alerts, namely the `cap`
most-recently-accepted ones in their original submission order — eviction is
purely positional (oldest first), independent of severity. -/
theorem retention_cap_fifo (m k : Nat) (cycles : List (List GAlert))
    (hm : 1 ≤ m) (hk : 1 ≤ k)
    (hlen : (acceptedSeq m [] cycles).length = m + k) :
    runCycles m [] cycles = (acceptedSeq m [] cycles).drop k
    ∧ (runCycles m [] cycles).length = m := by
  have h0 := runCycles_eq_takeLast m hm cycles [] (by simp)
  rw [List.nil_append] at h0
  refine ⟨?_, ?_⟩
  · rw [h0]
    unfold takeLast
    congr 1
    omega
  · rw [h0]
    unfold takeLast
    rw [List.length_drop]
    omega

def gAlertA : GAlert := ⟨"i1", "SIM", "DDoS", "HIGH", "t1", "d", "fpA"⟩
def gAlertB : GAlert := ⟨"i2", "SIM", "Failed Login", "LOW", "t2", "d", "fpB"⟩

theorem retention_cap_fifo_witness :
    (acceptedSeq 1 [] [[gAlertA], [gAlertB]]).length = 1 + 1
    ∧ runCycles 1 [] [[gAlertA], [gAlertB]]
        = (acceptedSeq 1 [] [[gAlertA], [gAlertB]]).drop 1 :=
  ⟨by decide,
   (retention_cap_fifo 1 1 [[gAlertA], [gAlertB]] (by decide) (by decide)
     (by decide)).1⟩

/-- Claim **C3, counterexample**: the claim quantifies over *every* configured cap,
but for `cap = 0` the Python trim `alerts[-0:]` is the whole list, so one
accepted alert stays retained instead of zero. -/
theorem retention_cap_zero_counterexample :
    (acceptedSeq 0 [] [[gAlertA]]).length = 0 + 1
    ∧ (runCycles 0 [] [[gAlertA]]).length ≠ 0 := by decide

/-! ## Claim C4 — severity ranking / overall threat level -/

theorem le_f_pyMaxBy (f : DAlert → Nat) :
    ∀ (xs : List DAlert) (x : DAlert), f x ≤ f (pyMaxBy f x xs) := by
  intro xs
  induction xs with
  | nil => intro x; exact Nat.le_refl _
  | cons y ys ih =>
      intro x
      show f x ≤ f (pyMaxBy f (if f y > f x then y else x) ys)
      by_cases h : f y > f x
      · rw [if_pos h]
        exact Nat.le_trans (Nat.le_of_lt h) (ih y)
      · rw [if_neg h]
        exact ih x

theorem f_pyMaxBy_ge (f : DAlert → Nat) :
    ∀ (xs : List DAlert) (x z : DAlert), z ∈ x :: xs → f z ≤ f (pyMaxBy f x xs) := by
  intro xs
  induction xs with
  | nil =>
      intro x z hz
      rcases List.mem_singleton.mp hz with rfl
      exact Nat.le_refl _
  | cons y ys ih =>
      intro x z hz
      show f z ≤ f (pyMaxBy f (if f y > f x then y else x) ys)
      rcases List.mem_cons.mp hz with rfl | hz'
      · by_cases h : f y > f z
        · rw [if_pos h]
          exact Nat.le_trans (Nat.le_of_lt h) (le_f_pyMaxBy f ys y)
        · rw [if_neg h]
          exact le_f_pyMaxBy f ys z
      · rcases List.mem_cons.mp hz' with rfl | hz''
        · by_cases h : f z > f x
          · rw [if_pos h]
            exact le_f_pyMaxBy f ys z
          · rw [if_neg h]
            exact Nat.le_trans (Nat.le_of_not_lt h) (le_f_pyMaxBy f ys x)
        · by_cases h : f y > f x
          · rw [if_pos h]
            exact ih y z (List.mem_cons_of_mem y hz'')
          · rw [if_neg h]
            exact ih x z (List.mem_cons_of_mem x hz'')

theorem pyMaxBy_mem (f : DAlert → Nat) :
    ∀ (xs : List DAlert) (x : DAlert), pyMaxBy f x xs ∈ x :: xs := by
  intro xs
  induction xs with
  | nil => intro x; exact List.mem_singleton.mpr rfl
  | cons y ys ih =>
      intro x
      show pyMaxBy f (if f y > f x then y else x) ys ∈ x :: y :: ys
      by_cases h : f y > f x
      · rw [if_pos h]
        rcases List.mem_cons.mp (ih y) with h1 | h1
        · rw [h1]
          exact List.mem_cons_of_mem x (List.mem_cons_self y ys)
        · exact List.mem_cons_of_mem x (List.mem_cons_of_mem y h1)
      · rw [if_neg h]
        rcases List.mem_cons.mp (ih x) with h1 | h1
        · rw [h1]
          exact List.mem_cons_self x (y :: ys)
        · exact List.mem_cons_of_mem x (List.mem_cons_of_mem y h1)

/-- Embeds `max(..., key=f)` returns the *first* element attaining the maximal key:
`find?` with the maximal key finds exactly it. -/
theorem pyMaxBy_first (f : DAlert → Nat) :
    ∀ (xs : List DAlert) (x : DAlert),
      (x :: xs).find? (fun y => f y == f (pyMaxBy f x xs)) = some (pyMaxBy f x xs) := by
  intro xs
  induction xs with
  | nil =>
      intro x
      simp [pyMaxBy]
  | cons y ys ih =>
      intro x
      have hstep : pyMaxBy f x (y :: ys) = pyMaxBy f (if f y > f x then y else x) ys := rfl
      by_cases h : f y > f x
      · -- x is strictly below the maximum, so find? skips it
        rw [hstep, if_pos h]
        have hlt : f x < f (pyMaxBy f y ys) :=
          Nat.lt_of_lt_of_le h (le_f_pyMaxBy f ys y)
        rw [List.find?_cons_of_neg _ (by simp [Nat.ne_of_lt hlt])]
        exact ih y
      · rw [hstep, if_neg h]
        have ihx := ih x
        by_cases hx : f x = f (pyMaxBy f x ys)
        · -- x itself attains the maximum: find? stops at x, and pyMaxBy = x
          have hmx : pyMaxBy f x ys = x := by
            have h2 := ihx
            rw [List.find?_cons_of_pos _ (by simp [hx])] at h2
            exact (Option.some.injEq _ _).mp h2.symm
          rw [List.find?_cons_of_pos _ (by simp [hx]), hmx]
        · -- x is below the maximum; so is y (f y ≤ f x): find? skips both
          have hxlt : f x < f (pyMaxBy f x ys) :=
            Nat.lt_of_le_of_ne (le_f_pyMaxBy f ys x) hx
          have hylt : f y < f (pyMaxBy f x ys) :=
            Nat.lt_of_le_of_lt (Nat.le_of_not_lt h) hxlt
          rw [List.find?_cons_of_neg _ (by simp [Nat.ne_of_lt hxlt]),
              List.find?_cons_of_neg _ (by simp [Nat.ne_of_lt hylt])]
          rw [List.find?_cons_of_neg _ (by simp [Nat.ne_of_lt hxlt])] at ihx
          exact ihx

/-- Claim **C4**: `threat_level([])` is the `("ok", "All Systems Normal")` sentinel;
on a nonempty list the chosen member is the first one attaining the maximal
rank under `INFO(0) < LOW(1) < MEDIUM(2) < HIGH(3) < CRITICAL(4)`, and the
returned pair is that member's severity pushed through the static key/label
tables; on `[LOW, CRITICAL, HIGH]` the maximal severity is CRITICAL. -/
theorem threat_level_spec :
    threat_level [] = ("ok", "All Systems Normal")
    ∧ (∀ x xs,
        pyMaxBy alertRank x xs ∈ x :: xs
        ∧ (∀ z, z ∈ x :: xs → alertRank z ≤ alertRank (pyMaxBy alertRank x xs))
        ∧ (x :: xs).find? (fun y => alertRank y == alertRank (pyMaxBy alertRank x xs))
            = some (pyMaxBy alertRank x xs)
        ∧ threat_level (x :: xs) =
            ((sevKeyMap.lookup ((pyMaxBy alertRank x xs).severity.getD "LOW")).getD "ok",
             (sevLabelMap.lookup ((pyMaxBy alertRank x xs).severity.getD "LOW")).getD "LOW RISK"))
    ∧ (alertRank ⟨some "INFO"⟩ = 0 ∧ alertRank ⟨some "LOW"⟩ = 1
        ∧ alertRank ⟨some "MEDIUM"⟩ = 2 ∧ alertRank ⟨some "HIGH"⟩ = 3
        ∧ alertRank ⟨some "CRITICAL"⟩ = 4)
    ∧ (pyMaxBy alertRank ⟨some "LOW"⟩ [⟨some "CRITICAL"⟩, ⟨some "HIGH"⟩]).severity
        = some "CRITICAL"
    ∧ threat_level [⟨some "LOW"⟩, ⟨some "CRITICAL"⟩, ⟨some "HIGH"⟩]
        = ("crit", "CRITICAL THREAT") := by
  refine ⟨rfl, fun x xs => ⟨pyMaxBy_mem alertRank xs x,
      fun z hz => f_pyMaxBy_ge alertRank xs x z hz,
      pyMaxBy_first alertRank xs x, rfl⟩, by decide, by decide, by decide⟩

theorem threat_level_spec_witness :
    alertRank ⟨some "HIGH"⟩
      ≤ alertRank (pyMaxBy alertRank ⟨some "LOW"⟩ [⟨some "CRITICAL"⟩, ⟨some "HIGH"⟩]) :=
  (threat_level_spec.2.1 ⟨some "LOW"⟩ [⟨some "CRITICAL"⟩, ⟨some "HIGH"⟩]).2.1
    ⟨some "HIGH"⟩ (by simp)

/-! ## Claim C6 — IDS-layer dedup window -/

def exRawPair : List (String × JVal) :=
  [("src_ip", JVal.str "192.0.2.9"), ("dest_ip", JVal.str "198.51.100.7")]

def exT0 : String := "2025-03-01T00:00:00+00:00"
def exT1 : String := "2025-03-01T00:01:40+00:00"
def exT2 : String := "2025-03-01T00:05:50+00:00"

/-- A parsed IDS alert (as built by `parse_suricata_alert`) for the eve record
`exRawPair`, seen at timestamp `ts`. -/
def exIdsAlert (ts : String) : PAlert :=
  { id := "SUR_0_" ++ create_alert_hash exRawPair
    timestamp := JVal.str ts
    source := "Suricata IDS"
    severity := "MEDIUM"
    priority := 3
    type := "General"
    signature := JVal.str "Test Sig"
    signatureId := 0
    category := JVal.str "Unknown"
    host := JVal.str "192.0.2.9"
    srcIp := JVal.str "192.0.2.9"
    destIp := JVal.str "198.51.100.7"
    srcPort := 1
    destPort := 2
    protocol := "TCP"
    flowState := JVal.str "new"
    description := "d"
    reason := "r"
    details := "dt"
    status := "active"
    rawEvent := exRawPair }

/-- Verdict and duplicate counter of an `is_duplicate` outcome. -/
def dedupVerdict (r : Except Unit (Bool × List (String × JVal) × Nat)) :
    Option (Bool × Nat) :=
  r.toOption.map (fun x => (x.1, x.2.2))

/-- The cache of an `is_duplicate` outcome, with string timestamps exposed. -/
def dedupCacheTimes (r : Except Unit (Bool × List (String × JVal) × Nat)) :
    Option (List (String × Option String)) :=
  r.toOption.map (fun x => x.2.1.map (fun kv =>
    (kv.1, match kv.2 with | JVal.str s => some s | _ => none)))

def exCache1 : List (String × JVal) :=
  [(create_alert_hash exRawPair, JVal.str exT0)]

/-- Claim **C6, counterexample**: the first sighting (t=0s) is accepted and cached;
the repeat at t=100s is suppressed but the cache entry still holds t=0s — it
is *not* refreshed to the new sighting's timestamp as the claim states — and
therefore the repeat at t=350s (only 250s after the previous sighting, well
inside the 300s window) is accepted again, refuting "a steady repeat stream
with inter-arrival gaps below the window stays suppressed". -/
theorem dedup_window_no_refresh_counterexample :
    dedupVerdict (is_duplicate [] 0 (exIdsAlert exT0)) = some (false, 0)
    ∧ dedupCacheTimes (is_duplicate [] 0 (exIdsAlert exT0))
        = some [(create_alert_hash exRawPair, some exT0)]
    ∧ dedupVerdict (is_duplicate exCache1 0 (exIdsAlert exT1)) = some (true, 1)
    ∧ dedupCacheTimes (is_duplicate exCache1 0 (exIdsAlert exT1))
        = some [(create_alert_hash exRawPair, some exT0)]
    ∧ exT0 ≠ exT1
    ∧ dedupVerdict (is_duplicate exCache1 1 (exIdsAlert exT2)) = some (false, 1) := by
  decide

/-- Claim **C6, amended**: `is_duplicate` suppresses exactly when the cache holds an
entry under the hash of the alert's raw event whose parsed timestamp differs
from the alert's by strictly less than `DEDUP_WINDOW` seconds; a suppressed
repeat leaves the cache entry unchanged (the entry is only written on the
accepted path — either a fresh hash or a repeat at or beyond the window), so
a steady repeat stream is re-accepted once the window elapses after the last
*accepted* sighting. -/
theorem dedup_window_spec :
    ∀ (cache : List (String × JVal)) (dups : Nat) (a : PAlert)
      (ls : JVal) (lt ct : Int × Bool) (d : Int),
    (cache.lookup (create_alert_hash a.rawEvent) = none →
      is_duplicate cache dups a
        = .ok (false, dictSet cache (create_alert_hash a.rawEvent) a.timestamp, dups))
    ∧ (cache.lookup (create_alert_hash a.rawEvent) = some ls →
       jStrTime ls = .ok lt → jStrTime a.timestamp = .ok ct →
       pyDtDiff ct lt = .ok d →
       ((d < DEDUP_WINDOW →
          is_duplicate cache dups a = .ok (true, cache, dups + 1))
        ∧ (DEDUP_WINDOW ≤ d →
          is_duplicate cache dups a
            = .ok (false, dictSet cache (create_alert_hash a.rawEvent) a.timestamp, dups)))) := by
  intro cache dups a ls lt ct d
  refine ⟨fun h => ?_, fun h1 h2 h3 h4 => ⟨fun h5 => ?_, fun h5 => ?_⟩⟩
  · simp [is_duplicate, h]
  · simp [is_duplicate, h1, h2, h3, h4, h5]
  · simp [is_duplicate, h1, h2, h3, h4, if_neg (by omega : ¬ d < DEDUP_WINDOW)]

theorem dedup_window_spec_witness :
    is_duplicate exCache1 0 (exIdsAlert exT1) = .ok (true, exCache1, 0 + 1) :=
  ((dedup_window_spec exCache1 0 (exIdsAlert exT1) (JVal.str exT0)
      (1740787200, true) (1740787300, true) 100).2
    rfl rfl rfl rfl).1 (by decide)

/-! ## Claim C7 — malformed-line tolerance -/

def exNow : String := "2025-03-01T09:00:00Z"

def exLine1 : String :=
  "\x7b\"event_type\": \"alert\", \"timestamp\": \"2025-03-01T00:00:00+00:00\", \"src_ip\": \"10.0.0.1\", \"dest_ip\": \"10.0.0.2\", \"alert\": \x7b\"signature\": \"ET SCAN test\", \"signature_id\": 42, \"priority\": 1\x7d\x7d\n"

def exBadLine : String := "not json\n"

def exLine3 : String :=
  "\x7b\"event_type\": \"alert\", \"timestamp\": \"2025-03-01T00:00:05+00:00\", \"src_ip\": \"10.0.0.7\", \"dest_ip\": \"10.0.0.2\", \"alert\": \x7b\"signature\": \"ET DNS query\", \"signature_id\": 43, \"priority\": 2\x7d\x7d\n"

/-- Two valid alert lines with a non-JSON line between them. -/
def exContent : String := exLine1 ++ exBadLine ++ exLine3

def exStats0 : Stats := ⟨0, 0, 0, 0⟩

def exRState0 : RState := ⟨0, [], exStats0⟩

/-- A line whose JSON parses but whose processing raises
(`int("abc")` on the priority field), which *is* counted as an error. -/
def exBadPrio : String :=
  "\x7b\"event_type\": \"alert\", \"alert\": \x7b\"priority\": \"abc\"\x7d\x7d\n"

/-- Claim **C7, counterexample**: tailing `exContent` (valid line, `"not json"`,
valid line) yields exactly 2 candidate alerts and never aborts, but the error
counter stays at 0 — the non-JSON line is skipped *silently*
(`json.JSONDecodeError` is caught inside `parse_suricata_alert`, which
returns `None`), not counted as the claim states. -/
theorem malformed_line_errors_counterexample :
    (jsonLoads (pyStrip exBadLine)).isNone = true
    ∧ (process_new_lines true exContent exNow exRState0).1.length = 2
    ∧ (process_new_lines true exContent exNow exRState0).2.stats.errors = 0 := by
  decide

/-- Claim **C7, amended**: a non-JSON line interleaved with two valid alert lines
yields exactly 2 candidate alerts and processing never aborts, but the
malformed line only increments the `processed` counter — the error counter is
*not* incremented (it counts lines whose processing raises an uncaught
exception, e.g. a non-numeric `priority` field). -/
theorem malformed_line_tolerance :
    (∀ nowTs line alerts cache stats, jsonLoads (pyStrip line) = none →
      processLine nowTs (alerts, cache, stats) line
        = (alerts, cache, { stats with processed := stats.processed + 1 }))
    ∧ (process_new_lines true exContent exNow exRState0).1.length = 2
    ∧ (process_new_lines true exContent exNow exRState0).2.stats = ⟨3, 2, 0, 0⟩
    ∧ (processLine exNow ([], [], exStats0) exBadPrio).2.2 = ⟨1, 0, 0, 1⟩ := by
  refine ⟨fun nowTs line alerts cache stats h => ?_, by decide, by decide, by decide⟩
  simp [processLine, parse_suricata_alert, h]

theorem malformed_line_tolerance_witness :
    processLine exNow ([], [], exStats0) exBadLine = ([], [], ⟨1, 0, 0, 0⟩) :=
  malformed_line_tolerance.1 exNow exBadLine [] [] exStats0 rfl

/-! ## Claim C8 — rotation handling -/

/-- Fifty malformed lines (9 bytes each, 450 bytes total): enough pending
lines to trigger the `BATCH_SIZE` break in the read loop. -/
def exBig : String := String.join (List.replicate 50 "not json\n")

/-- Reader state after the first poll over `exBig` following a rotation
(recorded offset 10000 far beyond the 450-byte file). -/
def exStuck1 : RState := (process_new_lines true exBig exNow ⟨10000, [], exStats0⟩).2

/-- Claim **C8** (bug evaluation): rotation detection itself works — a size
below the recorded offset resets the offset to 0 — but "reprocesses the file
from the start, without raising an error" fails whenever the rotated file has
`BATCH_SIZE` (50) or more lines: the read loop breaks out of text-mode
iteration, `f.tell()` raises `OSError`, the catch-all counts an error and
discards the batch, and the offset stays at 0, so the next poll repeats the
identical failure and the reader never advances.  The same applies to
"resumes reading from the recorded offset" with a ≥ 50-line backlog.  For a
rotated file shorter than the batch limit (here 3 lines) reprocessing does
complete without an error and the offset advances to the end of the file. -/
theorem rotation_batch_stall :
    (process_new_lines true exBig exNow ⟨10000, [], exStats0⟩).1.length = 0
    ∧ exStuck1.lastPosition = 0
    ∧ exStuck1.stats.errors = 1
    ∧ exStuck1.stats.processed = 50
    ∧ (process_new_lines true exBig exNow exStuck1).1.length = 0
    ∧ (process_new_lines true exBig exNow exStuck1).2.lastPosition = 0
    ∧ (process_new_lines true exBig exNow exStuck1).2.stats.errors = 2
    ∧ (process_new_lines true exContent exNow ⟨10000, [], exStats0⟩).1.length = 2
    ∧ (process_new_lines true exContent exNow ⟨10000, [], exStats0⟩).2.lastPosition
        = byteLen exContent
    ∧ (process_new_lines true exContent exNow ⟨10000, [], exStats0⟩).2.stats.errors = 0 := by
  decide
